import Mathlib

/-!
Shallow embedding of the JobStream ML verification service core
(`src/ml-service`): the risk scorer (`services/risk_scorer.py`), the
sentiment aggregator (`services/sentiment_analyzer.py`,
`analyze_company_sentiment`) and the signal gatherer's
exception-defaulting step (`services/web_intelligence.py`,
`gather_intelligence`).

Python floats are modelled as exact rationals (ℚ).  All decision
boundaries reachable by the scorer (`score ≤ 30`, `score ≤ 60`,
`ratio < 0.6`) are never approached within floating-point error by a
reachable value, so the rational semantics is observationally
equivalent to the float semantics of the source.
-/

/-- `RiskLevel` enum from `models/responses.py`. -/
inductive RiskLevel where
  | LOW
  | MEDIUM
  | HIGH
deriving DecidableEq, Repr

/-- `SentimentType` enum from `models/responses.py`. -/
inductive SentimentType where
  | POSITIVE
  | NEUTRAL
  | NEGATIVE
deriving DecidableEq, Repr

/-- `SentimentSource` model from `models/responses.py`. -/
structure SentimentSource where
  source : String
  rating : Option ℚ
  review_count : Option ℕ
  article_count : Option ℕ
  sentiment : SentimentType
deriving DecidableEq, Repr

/-- `SentimentAnalysis` model from `models/responses.py`. -/
structure SentimentAnalysis where
  overall_sentiment : SentimentType
  sentiment_score : ℚ
  sources : List SentimentSource
deriving DecidableEq, Repr

/-- `WebIntelligence` model from `models/responses.py` (the SignalSet).
Timestamps are abstracted to naturals. -/
structure WebIntelligence where
  companies_house_match : Bool
  website_active : Bool
  website_age : Option String
  linkedin_verified : Bool
  linkedin_followers : Option ℕ
  news_articles_found : ℕ
  recent_news_date : Option ℕ
deriving DecidableEq, Repr

/-- `CompanyVerificationRequest` model from `models/requests.py`.
The opaque registration id is dropped (never read by the core). -/
structure CompanyVerificationRequest where
  company_name : String
  company_number : Option String
  vat_number : Option String
  website_url : Option String
  linkedin_url : Option String
  business_description : Option String
deriving DecidableEq, Repr

/-- Python truthiness of an `Optional[str]`: `None` and the empty
string are falsy (`if request.company_number:` in the source). -/
def pyTruthy : Option String → Bool
  | none => false
  | some s => !s.isEmpty

/-- Round-half-to-even on rationals, the tie rule of Python `round`. -/
def roundHalfEven (q : ℚ) : ℤ :=
  let f := ⌊q⌋
  let r := q - (f : ℚ)
  if r < 1 / 2 then f
  else if 1 / 2 < r then f + 1
  else if f % 2 = 0 then f else f + 1

/-- Python `round(q, d)` on exact rationals. -/
def pyRound (q : ℚ) (d : ℕ) : ℚ :=
  (roundHalfEven (q * 10 ^ d) : ℚ) / 10 ^ d

/-- The `RiskScorer.WEIGHTS` dict (`risk_scorer.py`, lines 17-24). -/
def WEIGHTS : List (String × ℚ) :=
  [("business_register", 25),
   ("website", 15),
   ("linkedin", 10),
   ("news_presence", 10),
   ("sentiment", 25),
   ("information_completeness", 15)]

/-- Dict lookup `self.WEIGHTS[k]` (total, with junk value 0 off-key). -/
def weight (k : String) : ℚ :=
  ((WEIGHTS.find? (fun p => p.1 == k)).map Prod.snd).getD 0

/-- The `(risk points, flags appended, recommendations appended)` effect
of one numbered block of `RiskScorer.calculate_risk`. -/
structure StepOut where
  points : ℚ
  flags : List String
  recs : List String
deriving DecidableEq, Repr

/-- Block 1 of `calculate_risk`: business-register verification
(`risk_scorer.py`, lines 47-54). -/
def registerStep (web_intel : WebIntelligence) : StepOut :=
  if web_intel.companies_house_match = false then
    ⟨weight "business_register",
     ["BUSINESS_REGISTER_NOT_FOUND"],
     ["⚠️ Company not found in business register (Handelsregister/Companies House)"]⟩
  else
    ⟨0, [], ["✅ Company verified in official business register"]⟩

/-- Block 2 of `calculate_risk`: website presence (lines 56-62). -/
def websiteStep (web_intel : WebIntelligence) : StepOut :=
  if web_intel.website_active = false then
    ⟨weight "website", ["WEBSITE_UNREACHABLE"], ["⚠️ Website URL is not accessible"]⟩
  else
    ⟨0, [], ["✅ Active website found"]⟩

/-- Block 3 of `calculate_risk`: LinkedIn presence (lines 64-73).
`linkedin_followers and linkedin_followers > 100` is Python truthiness:
`None` and `0` are falsy, and `0 > 100` is false anyway. -/
def linkedinStep (web_intel : WebIntelligence) : StepOut :=
  if web_intel.linkedin_verified = false then
    ⟨weight "linkedin" * 0.5, ["NO_LINKEDIN_PRESENCE"], ["⚠️ No LinkedIn company page found"]⟩
  else
    match web_intel.linkedin_followers with
    | some n =>
        if 100 < n then
          ⟨0, [], ["✅ LinkedIn page with " ++ toString n ++ " followers"]⟩
        else
          ⟨0, [], ["ℹ️ LinkedIn page found (limited followers)"]⟩
    | none => ⟨0, [], ["ℹ️ LinkedIn page found (limited followers)"]⟩

/-- Block 4 of `calculate_risk`: news/web mentions (lines 75-81). -/
def newsStep (web_intel : WebIntelligence) : StepOut :=
  if web_intel.news_articles_found = 0 then
    ⟨weight "news_presence" * 0.7, ["NO_WEB_MENTIONS"], ["ℹ️ No news articles found (may be new company)"]⟩
  else
    ⟨0, [], ["✅ Found " ++ toString web_intel.news_articles_found ++ " news articles"]⟩

/-- Rendering of a Python `f"...{x:.2f}"` interpolation on exact
rationals: fixed two-decimal decimal form. -/
def fmtFixed2 (q : ℚ) : String :=
  let n : ℤ := roundHalfEven (q * 100)
  let sign := if n < 0 then "-" else ""
  let m := n.natAbs
  let fracPart := m % 100
  sign ++ toString (m / 100) ++ "." ++ (if fracPart < 10 then "0" else "") ++ toString fracPart

/-- Block 5 of `calculate_risk`: sentiment (lines 83-92).  A NEUTRAL
sentiment adds 30% of the weight but appends no flag. -/
def sentimentStep (sentiment : SentimentAnalysis) : StepOut :=
  if sentiment.overall_sentiment = SentimentType.NEGATIVE then
    ⟨weight "sentiment", ["NEGATIVE_SENTIMENT"],
     ["⚠️ Negative sentiment detected (score: " ++ fmtFixed2 sentiment.sentiment_score ++ ")"]⟩
  else if sentiment.overall_sentiment = SentimentType.NEUTRAL then
    ⟨weight "sentiment" * 0.3, [],
     ["ℹ️ Neutral sentiment (score: " ++ fmtFixed2 sentiment.sentiment_score ++ ")"]⟩
  else
    ⟨0, [],
     ["✅ Positive sentiment detected (score: " ++ fmtFixed2 sentiment.sentiment_score ++ ")"]⟩

/-- `provided_fields` counter of `calculate_risk` (lines 95-107): how
many of the five optional request fields are (truthily) present. -/
def providedFields (request : CompanyVerificationRequest) : ℕ :=
  (if pyTruthy request.company_number then 1 else 0)
  + (if pyTruthy request.vat_number then 1 else 0)
  + (if pyTruthy request.website_url then 1 else 0)
  + (if pyTruthy request.linkedin_url then 1 else 0)
  + (if pyTruthy request.business_description then 1 else 0)

/-- `completeness_ratio = provided_fields / total_fields` (line 109). -/
def completenessRatio (request : CompanyVerificationRequest) : ℚ :=
  (providedFields request : ℚ) / 5

/-- Block 6 of `calculate_risk`: information completeness
(lines 94-116). -/
def completenessStep (request : CompanyVerificationRequest) : StepOut :=
  let provided := providedFields request
  let ratio := completenessRatio request
  if ratio < 0.6 then
    ⟨weight "information_completeness" * (1 - ratio),
     ["INCOMPLETE_INFORMATION"],
     ["⚠️ Limited information provided (" ++ toString provided ++ "/5 fields)"]⟩
  else
    ⟨0, [], ["✅ Complete information provided (" ++ toString provided ++ "/5 fields)"]⟩

/-- The six category blocks of `calculate_risk`, in source order. -/
def riskSteps (web_intel : WebIntelligence) (sentiment : SentimentAnalysis)
    (request : CompanyVerificationRequest) : List StepOut :=
  [registerStep web_intel, websiteStep web_intel, linkedinStep web_intel,
   newsStep web_intel, sentimentStep sentiment, completenessStep request]

/-- The accumulated `risk_score` before rounding (lines 43-116). -/
def rawScore (web_intel : WebIntelligence) (sentiment : SentimentAnalysis)
    (request : CompanyVerificationRequest) : ℚ :=
  ((riskSteps web_intel sentiment request).map StepOut.points).sum

/-- Risk level from score (`risk_scorer.py`, lines 118-124). -/
def riskLevel (risk_score : ℚ) : RiskLevel :=
  if risk_score ≤ 30 then RiskLevel.LOW
  else if risk_score ≤ 60 then RiskLevel.MEDIUM
  else RiskLevel.HIGH

/-- `RiskScorer._calculate_confidence` (lines 145-183): mean of the
four confidence factors. -/
def calculateConfidence (web_intel : WebIntelligence) (sentiment : SentimentAnalysis)
    (ratio : ℚ) : ℚ :=
  let confidence_factors : List ℚ :=
    [if web_intel.companies_house_match then 0.9 else 0.5,
     if web_intel.website_active then 0.8 else 0.4,
     if 0 < sentiment.sources.length then 0.85 else 0.5,
     ratio]
  confidence_factors.sum / confidence_factors.length

/-- Final summary recommendation appended by level (lines 129-135). -/
def finalRecommendation (level : RiskLevel) : String :=
  if level = RiskLevel.HIGH then "⛔ RECOMMEND MANUAL VERIFICATION"
  else if level = RiskLevel.MEDIUM then "⚠️ Review carefully before approval"
  else "✅ Low risk - likely legitimate company"

/-- The dictionary returned by `calculate_risk` (lines 137-143). -/
structure RiskResult where
  score : ℚ
  level : RiskLevel
  flags : List String
  recommendations : List String
  confidence : ℚ
deriving DecidableEq, Repr

/-- `RiskScorer.calculate_risk` (`risk_scorer.py`, lines 26-143). -/
def calculateRisk (web_intel : WebIntelligence) (sentiment : SentimentAnalysis)
    (request : CompanyVerificationRequest) : RiskResult :=
  let steps := riskSteps web_intel sentiment request
  let risk_score := rawScore web_intel sentiment request
  let flags := (steps.map StepOut.flags).flatten
  let risk_level := riskLevel risk_score
  let confidence := calculateConfidence web_intel sentiment (completenessRatio request)
  let recommendations := (steps.map StepOut.recs).flatten ++ [finalRecommendation risk_level]
  { score := pyRound risk_score 1,
    level := risk_level,
    flags := flags,
    recommendations := recommendations,
    confidence := pyRound confidence 2 }

/-- Result record of `SentimentAnalyzer.analyze_text`
(`sentiment_analyzer.py`, lines 58-110). -/
structure TextScores where
  sentiment : SentimentType
  score : ℚ
  positive_score : ℚ
  negative_score : ℚ
deriving DecidableEq, Repr

/-- `SentimentAnalyzer.analyze_company_sentiment`
(`sentiment_analyzer.py`, lines 112-186), parameterised by the opaque
text-classification capability `classify` (the model-backed
`analyze_text`).  The mock web-presence review sentence of line 152 is
reproduced verbatim. -/
def analyzeCompanySentiment (classify : String → TextScores)
    (company_name : String) (business_description : Option String)
    (web_intel : WebIntelligence) : SentimentAnalysis :=
  let descState :=
    if pyTruthy business_description then
      let desc_sentiment := classify (business_description.getD "")
      ([SentimentSource.mk "Business Description" none none none desc_sentiment.sentiment],
       [desc_sentiment.positive_score])
    else ([], [])
  let webState :=
    if web_intel.companies_house_match && web_intel.website_active then
      let mock_review_text :=
        company_name ++ " is a legitimate company with an active web presence"
      let review_sentiment := classify mock_review_text
      (descState.1 ++
        [SentimentSource.mk "Web Presence Analysis"
          (some (if review_sentiment.sentiment = SentimentType.POSITIVE then 4.0 else 3.0))
          (some (if 0 < web_intel.news_articles_found then web_intel.news_articles_found else 1))
          none review_sentiment.sentiment],
       descState.2 ++ [review_sentiment.positive_score])
    else descState
  let sentiment_scores := webState.2
  if sentiment_scores.length = 0 then
    { overall_sentiment := SentimentType.NEUTRAL, sentiment_score := 0.5, sources := [] }
  else
    let avg_score := sentiment_scores.sum / sentiment_scores.length
    let overall_sentiment :=
      if 0.6 < avg_score then SentimentType.POSITIVE
      else if avg_score < 0.4 then SentimentType.NEGATIVE
      else SentimentType.NEUTRAL
    { overall_sentiment := overall_sentiment, sentiment_score := avg_score,
      sources := webState.1 }

/-- Exception-defaulting step of `WebIntelligenceService.gather_intelligence`
(`web_intelligence.py`, lines 45-71): each of the four lookup outcomes
is either a value or a raised exception (`Except`), and an exception is
replaced by that lookup's documented default.  The
`isinstance(..., tuple)` guards of lines 65-70 are vacuous after the
defaulting of lines 54-61, so they are embedded as plain projections. -/
def gatherIntelligence (handelsregister_match : Except Unit Bool)
    (website_data : Except Unit (Bool × Option String))
    (linkedin_data : Except Unit (Bool × Option ℕ))
    (news_data : Except Unit (ℕ × Option ℕ)) : WebIntelligence :=
  let hr := match handelsregister_match with
    | Except.error _ => false
    | Except.ok b => b
  let web := match website_data with
    | Except.error _ => (false, none)
    | Except.ok t => t
  let li := match linkedin_data with
    | Except.error _ => (false, none)
    | Except.ok t => t
  let news := match news_data with
    | Except.error _ => (0, none)
    | Except.ok t => t
  { companies_house_match := hr,
    website_active := web.1,
    website_age := web.2,
    linkedin_verified := li.1,
    linkedin_followers := li.2,
    news_articles_found := news.1,
    recent_news_date := news.2 }

/-- A concrete instance of the opaque classification capability:
constant neutral scores.  Used only to instantiate theorems at
concrete inputs. -/
def neutralClassify : String → TextScores :=
  fun _ => ⟨SentimentType.NEUTRAL, 0.5, 0.5, 0.5⟩

/-- Scenario-A request: required name only, no optional field. -/
def emptyRequest : CompanyVerificationRequest :=
  ⟨"Test Co", none, none, none, none, none⟩

/-- A request with all five optional fields present. -/
def fullRequest : CompanyVerificationRequest :=
  ⟨"Test Co", some "HRB 12345", some "DE123456789",
   some "https://example.com", some "https://linkedin.com/company/test",
   some "We provide software"⟩

/-- The all-defaulted SignalSet: what the gatherer returns when every
lookup raises. -/
def defaultSignals : WebIntelligence :=
  gatherIntelligence (Except.error ()) (Except.error ()) (Except.error ())
    (Except.error ())

/-- A SignalSet with every lookup succeeding positively. -/
def strongSignals : WebIntelligence :=
  ⟨true, true, some "Unknown", true, some 500, 8, none⟩

/-- A SentimentAnalysis with NEGATIVE overall sentiment. -/
def negativeSentiment : SentimentAnalysis :=
  ⟨SentimentType.NEGATIVE, 0.2, []⟩

/-- A SentimentAnalysis with NEUTRAL overall sentiment and one source. -/
def neutralSentiment : SentimentAnalysis :=
  ⟨SentimentType.NEUTRAL, 0.5,
   [⟨"Business Description", none, none, none, SentimentType.NEUTRAL⟩]⟩

/-- A rational that is an integer multiple of one half (all risk
contributions are, which is why `round(•, 1)` is the identity on
reachable scores). -/
def IsHalfInt (q : ℚ) : Prop := ∃ k : ℤ, q = k / 2

/-! ### Helper lemmas -/

theorem weight_business_register : weight "business_register" = 25 := rfl

theorem weight_website : weight "website" = 15 := rfl

theorem weight_linkedin : weight "linkedin" = 10 := rfl

theorem weight_news_presence : weight "news_presence" = 10 := rfl

theorem weight_sentiment : weight "sentiment" = 25 := rfl

theorem weight_information_completeness :
    weight "information_completeness" = 15 := rfl

theorem IsHalfInt.add {p q : ℚ} (hp : IsHalfInt p) (hq : IsHalfInt q) :
    IsHalfInt (p + q) := by
  obtain ⟨a, ha⟩ := hp
  obtain ⟨b, hb⟩ := hq
  exact ⟨a + b, by rw [ha, hb]; push_cast; ring⟩

theorem roundHalfEven_intCast (n : ℤ) : roundHalfEven (n : ℚ) = n := by
  simp [roundHalfEven]

theorem floor_le_roundHalfEven (q : ℚ) : ⌊q⌋ ≤ roundHalfEven q := by
  unfold roundHalfEven
  dsimp only
  split_ifs <;> omega

theorem roundHalfEven_le_floor_add_one (q : ℚ) :
    roundHalfEven q ≤ ⌊q⌋ + 1 := by
  unfold roundHalfEven
  dsimp only
  split_ifs <;> omega

theorem pyRound_nonneg {q : ℚ} (d : ℕ) (h : 0 ≤ q) : 0 ≤ pyRound q d := by
  unfold pyRound
  have h1 : (0 : ℤ) ≤ ⌊q * 10 ^ d⌋ := Int.floor_nonneg.mpr (by positivity)
  have h2 := floor_le_roundHalfEven (q * 10 ^ d)
  have h3 : (0 : ℚ) ≤ (roundHalfEven (q * 10 ^ d) : ℚ) := by exact_mod_cast h1.trans h2
  positivity

theorem pyRound_le_add {q : ℚ} (d : ℕ) : pyRound q d ≤ q + 1 / 10 ^ d := by
  unfold pyRound
  have h1 := roundHalfEven_le_floor_add_one (q * 10 ^ d)
  have h2 : (⌊q * 10 ^ d⌋ : ℚ) ≤ q * 10 ^ d := Int.floor_le _
  have h3 : (roundHalfEven (q * 10 ^ d) : ℚ) ≤ q * 10 ^ d + 1 := by
    have : (roundHalfEven (q * 10 ^ d) : ℚ) ≤ (⌊q * 10 ^ d⌋ : ℚ) + 1 := by
      exact_mod_cast h1
    linarith
  have hpow : (0 : ℚ) < 10 ^ d := by positivity
  rw [div_le_iff₀ hpow] at *
  calc (roundHalfEven (q * 10 ^ d) : ℚ) ≤ q * 10 ^ d + 1 := h3
    _ = (q + 1 / 10 ^ d) * 10 ^ d := by field_simp

theorem pyRound_one_of_halfInt {q : ℚ} (h : IsHalfInt q) : pyRound q 1 = q := by
  obtain ⟨k, hk⟩ := h
  subst hk
  have h10 : (k : ℚ) / 2 * 10 ^ 1 = ((5 * k : ℤ) : ℚ) := by push_cast; ring
  rw [pyRound, h10, roundHalfEven_intCast]
  push_cast
  ring

theorem registerStep_points (w : WebIntelligence) :
    (registerStep w).points =
      if w.companies_house_match = false then 25 else 0 := by
  unfold registerStep
  split_ifs <;> simp [weight_business_register]

theorem websiteStep_points (w : WebIntelligence) :
    (websiteStep w).points = if w.website_active = false then 15 else 0 := by
  unfold websiteStep
  split_ifs <;> simp [weight_website]

theorem linkedinStep_points (w : WebIntelligence) :
    (linkedinStep w).points = if w.linkedin_verified = false then 5 else 0 := by
  unfold linkedinStep
  split_ifs with h
  · rw [weight_linkedin]; norm_num
  · cases w.linkedin_followers with
    | none => rfl
    | some n =>
        dsimp only
        split_ifs <;> rfl

theorem newsStep_points (w : WebIntelligence) :
    (newsStep w).points = if w.news_articles_found = 0 then 7 else 0 := by
  unfold newsStep
  split_ifs <;> first
    | (rw [weight_news_presence]; norm_num)
    | rfl

theorem sentimentStep_points (s : SentimentAnalysis) :
    (sentimentStep s).points =
      if s.overall_sentiment = SentimentType.NEGATIVE then 25
      else if s.overall_sentiment = SentimentType.NEUTRAL then 7.5
      else 0 := by
  unfold sentimentStep
  split_ifs <;> first
    | (rw [weight_sentiment]; norm_num)
    | rfl

theorem completenessStep_points (r : CompanyVerificationRequest) :
    (completenessStep r).points =
      if completenessRatio r < 0.6 then 15 * (1 - completenessRatio r)
      else 0 := by
  unfold completenessStep
  dsimp only
  split_ifs <;> simp [weight_information_completeness]

theorem providedFields_le_five (r : CompanyVerificationRequest) :
    providedFields r ≤ 5 := by
  unfold providedFields
  split_ifs <;> norm_num

theorem completenessRatio_nonneg (r : CompanyVerificationRequest) :
    0 ≤ completenessRatio r := by
  unfold completenessRatio
  positivity

theorem completenessRatio_le_one (r : CompanyVerificationRequest) :
    completenessRatio r ≤ 1 := by
  unfold completenessRatio
  rw [div_le_one (by norm_num)]
  exact_mod_cast providedFields_le_five r

theorem registerStep_points_nonneg (w : WebIntelligence) :
    0 ≤ (registerStep w).points := by
  rw [registerStep_points]; split_ifs <;> norm_num

theorem registerStep_points_le (w : WebIntelligence) :
    (registerStep w).points ≤ 25 := by
  rw [registerStep_points]; split_ifs <;> norm_num

theorem websiteStep_points_nonneg (w : WebIntelligence) :
    0 ≤ (websiteStep w).points := by
  rw [websiteStep_points]; split_ifs <;> norm_num

theorem websiteStep_points_le (w : WebIntelligence) :
    (websiteStep w).points ≤ 15 := by
  rw [websiteStep_points]; split_ifs <;> norm_num

theorem linkedinStep_points_nonneg (w : WebIntelligence) :
    0 ≤ (linkedinStep w).points := by
  rw [linkedinStep_points]; split_ifs <;> norm_num

theorem linkedinStep_points_le (w : WebIntelligence) :
    (linkedinStep w).points ≤ 5 := by
  rw [linkedinStep_points]; split_ifs <;> norm_num

theorem newsStep_points_nonneg (w : WebIntelligence) :
    0 ≤ (newsStep w).points := by
  rw [newsStep_points]; split_ifs <;> norm_num

theorem newsStep_points_le (w : WebIntelligence) :
    (newsStep w).points ≤ 7 := by
  rw [newsStep_points]; split_ifs <;> norm_num

theorem sentimentStep_points_nonneg (s : SentimentAnalysis) :
    0 ≤ (sentimentStep s).points := by
  rw [sentimentStep_points]; split_ifs <;> norm_num

theorem sentimentStep_points_le (s : SentimentAnalysis) :
    (sentimentStep s).points ≤ 25 := by
  rw [sentimentStep_points]; split_ifs <;> norm_num

theorem completenessStep_points_nonneg (r : CompanyVerificationRequest) :
    0 ≤ (completenessStep r).points := by
  rw [completenessStep_points]
  have h := completenessRatio_le_one r
  split_ifs <;> nlinarith

theorem completenessStep_points_le (r : CompanyVerificationRequest) :
    (completenessStep r).points ≤ 15 := by
  rw [completenessStep_points]
  have h := completenessRatio_nonneg r
  split_ifs <;> nlinarith

theorem registerStep_points_halfInt (w : WebIntelligence) :
    IsHalfInt (registerStep w).points := by
  rw [registerStep_points]
  split_ifs
  · exact ⟨50, by norm_num⟩
  · exact ⟨0, by norm_num⟩

theorem websiteStep_points_halfInt (w : WebIntelligence) :
    IsHalfInt (websiteStep w).points := by
  rw [websiteStep_points]
  split_ifs
  · exact ⟨30, by norm_num⟩
  · exact ⟨0, by norm_num⟩

theorem linkedinStep_points_halfInt (w : WebIntelligence) :
    IsHalfInt (linkedinStep w).points := by
  rw [linkedinStep_points]
  split_ifs
  · exact ⟨10, by norm_num⟩
  · exact ⟨0, by norm_num⟩

theorem newsStep_points_halfInt (w : WebIntelligence) :
    IsHalfInt (newsStep w).points := by
  rw [newsStep_points]
  split_ifs
  · exact ⟨14, by norm_num⟩
  · exact ⟨0, by norm_num⟩

theorem sentimentStep_points_halfInt (s : SentimentAnalysis) :
    IsHalfInt (sentimentStep s).points := by
  rw [sentimentStep_points]
  split_ifs
  · exact ⟨50, by norm_num⟩
  · exact ⟨15, by norm_num⟩
  · exact ⟨0, by norm_num⟩

theorem completenessStep_points_halfInt (r : CompanyVerificationRequest) :
    IsHalfInt (completenessStep r).points := by
  rw [completenessStep_points]
  split_ifs
  · refine ⟨30 - 6 * providedFields r, ?_⟩
    unfold completenessRatio
    push_cast
    ring
  · exact ⟨0, by norm_num⟩

theorem rawScore_eq (w : WebIntelligence) (s : SentimentAnalysis)
    (r : CompanyVerificationRequest) :
    rawScore w s r =
      (registerStep w).points + (websiteStep w).points
      + (linkedinStep w).points + (newsStep w).points
      + (sentimentStep s).points + (completenessStep r).points := by
  simp [rawScore, riskSteps]
  ring

theorem rawScore_nonneg (w : WebIntelligence) (s : SentimentAnalysis)
    (r : CompanyVerificationRequest) : 0 ≤ rawScore w s r := by
  rw [rawScore_eq]
  linarith [registerStep_points_nonneg w, websiteStep_points_nonneg w,
    linkedinStep_points_nonneg w, newsStep_points_nonneg w,
    sentimentStep_points_nonneg s, completenessStep_points_nonneg r]

theorem rawScore_le_92 (w : WebIntelligence) (s : SentimentAnalysis)
    (r : CompanyVerificationRequest) : rawScore w s r ≤ 92 := by
  rw [rawScore_eq]
  linarith [registerStep_points_le w, websiteStep_points_le w,
    linkedinStep_points_le w, newsStep_points_le w,
    sentimentStep_points_le s, completenessStep_points_le r]

theorem rawScore_halfInt (w : WebIntelligence) (s : SentimentAnalysis)
    (r : CompanyVerificationRequest) : IsHalfInt (rawScore w s r) := by
  rw [rawScore_eq]
  exact (((((registerStep_points_halfInt w).add
    (websiteStep_points_halfInt w)).add
    (linkedinStep_points_halfInt w)).add
    (newsStep_points_halfInt w)).add
    (sentimentStep_points_halfInt s)).add
    (completenessStep_points_halfInt r)

theorem calculateRisk_score_eq (w : WebIntelligence) (s : SentimentAnalysis)
    (r : CompanyVerificationRequest) :
    (calculateRisk w s r).score = rawScore w s r := by
  show pyRound (rawScore w s r) 1 = rawScore w s r
  exact pyRound_one_of_halfInt (rawScore_halfInt w s r)

theorem registerStep_flags (w : WebIntelligence) :
    (registerStep w).flags =
      if w.companies_house_match = false then ["BUSINESS_REGISTER_NOT_FOUND"]
      else [] := by
  unfold registerStep
  split_ifs <;> rfl

theorem websiteStep_flags (w : WebIntelligence) :
    (websiteStep w).flags =
      if w.website_active = false then ["WEBSITE_UNREACHABLE"] else [] := by
  unfold websiteStep
  split_ifs <;> rfl

theorem linkedinStep_flags (w : WebIntelligence) :
    (linkedinStep w).flags =
      if w.linkedin_verified = false then ["NO_LINKEDIN_PRESENCE"] else [] := by
  unfold linkedinStep
  split_ifs with h
  · rfl
  · cases w.linkedin_followers with
    | none => rfl
    | some n =>
        dsimp only
        split_ifs <;> rfl

theorem newsStep_flags (w : WebIntelligence) :
    (newsStep w).flags =
      if w.news_articles_found = 0 then ["NO_WEB_MENTIONS"] else [] := by
  unfold newsStep
  split_ifs <;> rfl

theorem sentimentStep_flags (s : SentimentAnalysis) :
    (sentimentStep s).flags =
      if s.overall_sentiment = SentimentType.NEGATIVE then ["NEGATIVE_SENTIMENT"]
      else [] := by
  unfold sentimentStep
  split_ifs <;> rfl

theorem completenessStep_flags (r : CompanyVerificationRequest) :
    (completenessStep r).flags =
      if completenessRatio r < 0.6 then ["INCOMPLETE_INFORMATION"] else [] := by
  unfold completenessStep
  dsimp only
  split_ifs <;> rfl

theorem calculateRisk_flags (w : WebIntelligence) (s : SentimentAnalysis)
    (r : CompanyVerificationRequest) :
    (calculateRisk w s r).flags =
      (if w.companies_house_match = false then ["BUSINESS_REGISTER_NOT_FOUND"] else [])
      ++ (if w.website_active = false then ["WEBSITE_UNREACHABLE"] else [])
      ++ (if w.linkedin_verified = false then ["NO_LINKEDIN_PRESENCE"] else [])
      ++ (if w.news_articles_found = 0 then ["NO_WEB_MENTIONS"] else [])
      ++ (if s.overall_sentiment = SentimentType.NEGATIVE then ["NEGATIVE_SENTIMENT"] else [])
      ++ (if completenessRatio r < 0.6 then ["INCOMPLETE_INFORMATION"] else []) := by
  show ((riskSteps w s r).map StepOut.flags).flatten = _
  simp only [riskSteps, List.map_cons, List.map_nil, List.flatten_cons,
    List.flatten_nil, List.append_nil,
    registerStep_flags, websiteStep_flags, linkedinStep_flags,
    newsStep_flags, sentimentStep_flags, completenessStep_flags,
    List.append_assoc]

theorem registerStep_recs_length (w : WebIntelligence) :
    (registerStep w).recs.length = 1 := by
  unfold registerStep
  split_ifs <;> rfl

theorem websiteStep_recs_length (w : WebIntelligence) :
    (websiteStep w).recs.length = 1 := by
  unfold websiteStep
  split_ifs <;> rfl

theorem linkedinStep_recs_length (w : WebIntelligence) :
    (linkedinStep w).recs.length = 1 := by
  unfold linkedinStep
  split_ifs with h
  · rfl
  · cases w.linkedin_followers with
    | none => rfl
    | some n =>
        dsimp only
        split_ifs <;> rfl

theorem newsStep_recs_length (w : WebIntelligence) :
    (newsStep w).recs.length = 1 := by
  unfold newsStep
  split_ifs <;> rfl

theorem sentimentStep_recs_length (s : SentimentAnalysis) :
    (sentimentStep s).recs.length = 1 := by
  unfold sentimentStep
  split_ifs <;> rfl

theorem completenessStep_recs_length (r : CompanyVerificationRequest) :
    (completenessStep r).recs.length = 1 := by
  unfold completenessStep
  dsimp only
  split_ifs <;> rfl

theorem calculateRisk_recommendations (w : WebIntelligence)
    (s : SentimentAnalysis) (r : CompanyVerificationRequest) :
    (calculateRisk w s r).recommendations =
      ((riskSteps w s r).map StepOut.recs).flatten
      ++ [finalRecommendation (riskLevel (rawScore w s r))] := rfl

theorem calculateRisk_level (w : WebIntelligence) (s : SentimentAnalysis)
    (r : CompanyVerificationRequest) :
    (calculateRisk w s r).level = riskLevel (rawScore w s r) := rfl

theorem calculateRisk_confidence (w : WebIntelligence)
    (s : SentimentAnalysis) (r : CompanyVerificationRequest) :
    (calculateRisk w s r).confidence =
      pyRound (calculateConfidence w s (completenessRatio r)) 2 := rfl

theorem mem_ite_singleton {c : Prop} [Decidable c] (a b : String) :
    (a ∈ if c then [b] else ([] : List String)) ↔ c ∧ a = b := by
  split_ifs with h <;> simp [h]

/-! ### Claim theorems -/

/-- C3: for every SignalSet, SentimentAssessment and request, the weight
table sums to (at most) 100, the triggered contributions sum to a value
in [0,100], and the returned score is that sum rounded to one decimal
place, hence also in [0,100]. -/
theorem C3_score_in_range (w : WebIntelligence) (s : SentimentAnalysis)
    (r : CompanyVerificationRequest) :
    (WEIGHTS.map Prod.snd).sum ≤ 100
    ∧ 0 ≤ rawScore w s r ∧ rawScore w s r ≤ 100
    ∧ (calculateRisk w s r).score = pyRound (rawScore w s r) 1
    ∧ 0 ≤ (calculateRisk w s r).score
    ∧ (calculateRisk w s r).score ≤ 100 := by
  have h0 := rawScore_nonneg w s r
  have h92 := rawScore_le_92 w s r
  have hsc := calculateRisk_score_eq w s r
  refine ⟨by norm_num [WEIGHTS], h0, by linarith, rfl, ?_, ?_⟩
  · rw [hsc]; exact h0
  · rw [hsc]; linarith

/-- C4: risk level is a pure step function of the score: `score ≤ 30`
gives LOW, `30 < score ≤ 60` gives MEDIUM, `score > 60` gives HIGH, with
the boundary values 30 ↦ LOW, 30.1 ↦ MEDIUM, 60 ↦ MEDIUM,
60.1 ↦ HIGH; and the level returned by `calculate_risk` is exactly this
function of the returned score. -/
theorem C4_level_step_function :
    (∀ q : ℚ,
      (q ≤ 30 → riskLevel q = RiskLevel.LOW)
      ∧ (30 < q → q ≤ 60 → riskLevel q = RiskLevel.MEDIUM)
      ∧ (60 < q → riskLevel q = RiskLevel.HIGH))
    ∧ riskLevel 30 = RiskLevel.LOW
    ∧ riskLevel 30.1 = RiskLevel.MEDIUM
    ∧ riskLevel 60 = RiskLevel.MEDIUM
    ∧ riskLevel 60.1 = RiskLevel.HIGH
    ∧ ∀ (w : WebIntelligence) (s : SentimentAnalysis)
        (r : CompanyVerificationRequest),
        (calculateRisk w s r).level = riskLevel ((calculateRisk w s r).score) := by
  refine ⟨?_, by norm_num [riskLevel], by norm_num [riskLevel],
    by norm_num [riskLevel], by norm_num [riskLevel], ?_⟩
  · intro q
    refine ⟨fun h => ?_, fun h1 h2 => ?_, fun h => ?_⟩ <;>
      (unfold riskLevel; split_ifs <;> first | rfl | linarith)
  · intro w s r
    rw [calculateRisk_score_eq, calculateRisk_level]

/-- C4 witness: the step function evaluated through the theorem at the
concrete scores 25, 45 and 61. -/
theorem C4_witness :
    riskLevel 25 = RiskLevel.LOW ∧ riskLevel 45 = RiskLevel.MEDIUM
    ∧ riskLevel 61 = RiskLevel.HIGH :=
  ⟨(C4_level_step_function.1 25).1 (by norm_num),
   (C4_level_step_function.1 45).2.1 (by norm_num) (by norm_num),
   (C4_level_step_function.1 61).2.2 (by norm_num)⟩

/-- C8: every contribution is a multiple of one half, so the unrounded
score is too, rounding to one decimal is the identity on it, and the
maximum attainable score is 92 (attained by the all-default SignalSet
with NEGATIVE sentiment and an empty request), strictly below 100. -/
theorem C8_score_granularity :
    (∀ (w : WebIntelligence) (s : SentimentAnalysis)
        (r : CompanyVerificationRequest),
      IsHalfInt (rawScore w s r)
      ∧ pyRound (rawScore w s r) 1 = rawScore w s r
      ∧ (calculateRisk w s r).score = rawScore w s r
      ∧ rawScore w s r ≤ 92)
    ∧ rawScore defaultSignals negativeSentiment emptyRequest = 92
    ∧ (92 : ℚ) < 100 := by
  refine ⟨fun w s r => ⟨rawScore_halfInt w s r,
    pyRound_one_of_halfInt (rawScore_halfInt w s r),
    calculateRisk_score_eq w s r, rawScore_le_92 w s r⟩, ?_, by norm_num⟩
  have hd : defaultSignals = ⟨false, false, none, false, none, 0, none⟩ := rfl
  have hρ : completenessRatio emptyRequest = 0 := by
    norm_num [completenessRatio, providedFields, emptyRequest, pyTruthy]
  rw [rawScore_eq, registerStep_points, websiteStep_points,
    linkedinStep_points, newsStep_points, sentimentStep_points,
    completenessStep_points, hd, hρ]
  norm_num [negativeSentiment]

/-- C9: the recommendations list always has exactly seven entries — one
per category block in source order, then exactly one final summary
recommendation determined by the risk level. -/
theorem C9_recommendations_count (w : WebIntelligence)
    (s : SentimentAnalysis) (r : CompanyVerificationRequest) :
    (calculateRisk w s r).recommendations.length = 7
    ∧ (calculateRisk w s r).recommendations =
      ((riskSteps w s r).map StepOut.recs).flatten
      ++ [finalRecommendation ((calculateRisk w s r).level)]
    ∧ ∀ step ∈ riskSteps w s r, step.recs.length = 1 := by
  have hsteps : ∀ step ∈ riskSteps w s r, step.recs.length = 1 := by
    intro step hstep
    simp only [riskSteps, List.mem_cons, List.not_mem_nil, or_false] at hstep
    rcases hstep with h | h | h | h | h | h <;> subst h
    · exact registerStep_recs_length w
    · exact websiteStep_recs_length w
    · exact linkedinStep_recs_length w
    · exact newsStep_recs_length w
    · exact sentimentStep_recs_length s
    · exact completenessStep_recs_length r
  refine ⟨?_, calculateRisk_recommendations w s r, hsteps⟩
  rw [calculateRisk_recommendations]
  simp only [riskSteps, List.map_cons, List.map_nil, List.flatten_cons,
    List.flatten_nil, List.append_nil, List.length_append,
    List.length_cons, List.length_nil,
    registerStep_recs_length, websiteStep_recs_length,
    linkedinStep_recs_length, newsStep_recs_length,
    sentimentStep_recs_length, completenessStep_recs_length]

/-- C1 counterexample: in scenario A (request with no optional fields,
all four signals at their defaults) the aggregated sentiment is NEUTRAL,
so the `NEGATIVE_SENTIMENT` flag is NOT raised — the claim that all six
trigger codes appear is false. -/
theorem C1_counterexample :
    "NEGATIVE_SENTIMENT" ∉
      (calculateRisk defaultSignals
        (analyzeCompanySentiment neutralClassify "Test Co" none defaultSignals)
        emptyRequest).flags := by
  have hs : analyzeCompanySentiment neutralClassify "Test Co" none defaultSignals =
      { overall_sentiment := SentimentType.NEUTRAL, sentiment_score := 0.5,
        sources := [] } := rfl
  rw [hs, calculateRisk_flags]
  have hρ : completenessRatio emptyRequest = 0 := by
    norm_num [completenessRatio, providedFields, emptyRequest, pyTruthy]
  have hd : defaultSignals = ⟨false, false, none, false, none, 0, none⟩ := rfl
  rw [hd, hρ]
  norm_num
  decide

/-- C1 amended: in scenario A the flags list contains exactly the five
trigger codes other than `NEGATIVE_SENTIMENT` (the default sentiment is
NEUTRAL, which contributes 30% of the sentiment weight without a flag),
the risk score is 74.5 and the risk level is HIGH. -/
theorem C1_scenarioA :
    (calculateRisk defaultSignals
        (analyzeCompanySentiment neutralClassify "Test Co" none defaultSignals)
        emptyRequest).flags =
      ["BUSINESS_REGISTER_NOT_FOUND", "WEBSITE_UNREACHABLE",
       "NO_LINKEDIN_PRESENCE", "NO_WEB_MENTIONS", "INCOMPLETE_INFORMATION"]
    ∧ (calculateRisk defaultSignals
        (analyzeCompanySentiment neutralClassify "Test Co" none defaultSignals)
        emptyRequest).score = 74.5
    ∧ (calculateRisk defaultSignals
        (analyzeCompanySentiment neutralClassify "Test Co" none defaultSignals)
        emptyRequest).level = RiskLevel.HIGH := by
  have hs : analyzeCompanySentiment neutralClassify "Test Co" none defaultSignals =
      { overall_sentiment := SentimentType.NEUTRAL, sentiment_score := 0.5,
        sources := [] } := rfl
  have hρ : completenessRatio emptyRequest = 0 := by
    norm_num [completenessRatio, providedFields, emptyRequest, pyTruthy]
  have hd : defaultSignals = ⟨false, false, none, false, none, 0, none⟩ := rfl
  have hraw : rawScore defaultSignals
      { overall_sentiment := SentimentType.NEUTRAL, sentiment_score := 0.5,
        sources := [] } emptyRequest = 74.5 := by
    rw [rawScore_eq, registerStep_points, websiteStep_points,
      linkedinStep_points, newsStep_points, sentimentStep_points,
      completenessStep_points, hd, hρ]
    rw [if_neg (by decide : ¬(SentimentType.NEUTRAL = SentimentType.NEGATIVE))]
    norm_num
  refine ⟨?_, ?_, ?_⟩
  · rw [hs, calculateRisk_flags, hd, hρ]
    norm_num
    all_goals decide
  · rw [hs, calculateRisk_score_eq, hraw]
  · rw [hs, calculateRisk_level, hraw]
    norm_num [riskLevel]

/-- C2 counterexample: with strong signals, a complete request and
NEUTRAL sentiment, the sentiment category contributes 7.5 points (the
whole returned score) yet appends no flag — so "each risk category that
contributes points appends exactly one flag code" is false. -/
theorem C2_counterexample :
    (sentimentStep neutralSentiment).points = 7.5
    ∧ (sentimentStep neutralSentiment).flags = []
    ∧ (calculateRisk strongSignals neutralSentiment fullRequest).score = 7.5
    ∧ (calculateRisk strongSignals neutralSentiment fullRequest).flags = [] := by
  have h5 : providedFields fullRequest = 5 := rfl
  have hρ : completenessRatio fullRequest = 1 := by
    rw [completenessRatio, h5]; norm_num
  refine ⟨?_, rfl, ?_, ?_⟩
  · rw [sentimentStep_points]
    norm_num [neutralSentiment]
    all_goals decide
  · rw [calculateRisk_score_eq, rawScore_eq, registerStep_points,
      websiteStep_points, linkedinStep_points, newsStep_points,
      sentimentStep_points, completenessStep_points, hρ]
    norm_num [strongSignals, neutralSentiment]
    all_goals decide
  · rw [calculateRisk_flags]
    have hne : SentimentType.NEUTRAL ≠ SentimentType.NEGATIVE := by decide
    norm_num [strongSignals, neutralSentiment, hρ]
    decide

/-- C2 amended: the flags list is duplicate-free and each of the six
flag codes appears exactly when its category's trigger condition holds;
every contributing category appends exactly one flag EXCEPT the
sentiment category under NEUTRAL sentiment, which contributes 7.5
points while appending no flag. -/
theorem C2_flags_unique (w : WebIntelligence) (s : SentimentAnalysis)
    (r : CompanyVerificationRequest) :
    (calculateRisk w s r).flags.Nodup
    ∧ ("BUSINESS_REGISTER_NOT_FOUND" ∈ (calculateRisk w s r).flags
        ↔ w.companies_house_match = false)
    ∧ ("WEBSITE_UNREACHABLE" ∈ (calculateRisk w s r).flags
        ↔ w.website_active = false)
    ∧ ("NO_LINKEDIN_PRESENCE" ∈ (calculateRisk w s r).flags
        ↔ w.linkedin_verified = false)
    ∧ ("NO_WEB_MENTIONS" ∈ (calculateRisk w s r).flags
        ↔ w.news_articles_found = 0)
    ∧ ("NEGATIVE_SENTIMENT" ∈ (calculateRisk w s r).flags
        ↔ s.overall_sentiment = SentimentType.NEGATIVE)
    ∧ ("INCOMPLETE_INFORMATION" ∈ (calculateRisk w s r).flags
        ↔ completenessRatio r < 0.6)
    ∧ (s.overall_sentiment = SentimentType.NEUTRAL →
        (sentimentStep s).points = 7.5 ∧ (sentimentStep s).flags = []) := by
  have hsub : List.Sublist ((calculateRisk w s r).flags)
      ["BUSINESS_REGISTER_NOT_FOUND", "WEBSITE_UNREACHABLE",
       "NO_LINKEDIN_PRESENCE", "NO_WEB_MENTIONS", "NEGATIVE_SENTIMENT",
       "INCOMPLETE_INFORMATION"] := by
    rw [calculateRisk_flags]
    show List.Sublist _ (["BUSINESS_REGISTER_NOT_FOUND"] ++ ["WEBSITE_UNREACHABLE"]
      ++ ["NO_LINKEDIN_PRESENCE"] ++ ["NO_WEB_MENTIONS"]
      ++ ["NEGATIVE_SENTIMENT"] ++ ["INCOMPLETE_INFORMATION"])
    have hpiece : ∀ (c : Prop) [Decidable c] (a : String),
        List.Sublist (if c then [a] else []) [a] := by
      intro c _ a
      split_ifs
      · exact List.Sublist.refl _
      · exact List.nil_sublist _
    exact ((((((hpiece _ _).append (hpiece _ _)).append
      (hpiece _ _)).append (hpiece _ _)).append
      (hpiece _ _)).append (hpiece _ _))
  refine ⟨List.Nodup.sublist hsub (by decide), ?_, ?_, ?_, ?_, ?_, ?_, ?_⟩
  · rw [calculateRisk_flags]; simp [List.mem_append]
  · rw [calculateRisk_flags]; simp [List.mem_append]
  · rw [calculateRisk_flags]; simp [List.mem_append]
  · rw [calculateRisk_flags]; simp [List.mem_append]
  · rw [calculateRisk_flags]; simp [List.mem_append]
  · rw [calculateRisk_flags]; simp [List.mem_append]
  · intro h
    rw [sentimentStep_points, sentimentStep_flags, h]
    norm_num
    all_goals decide

/-- C2 witness: the amended theorem applied at a concrete input whose
sentiment is NEUTRAL. -/
theorem C2_witness :
    (sentimentStep neutralSentiment).points = 7.5
    ∧ (sentimentStep neutralSentiment).flags = [] :=
  (C2_flags_unique strongSignals neutralSentiment fullRequest).2.2.2.2.2.2.2 rfl

/-- C5: the returned confidence is the unweighted arithmetic mean of the
four factors (0.9/0.5 for register match, 0.8/0.4 for website, 0.85/0.5
for sentiment sources present, and the raw completeness fraction),
rounded to two decimals, and always lies in [0,1]. -/
theorem C5_confidence_mean (w : WebIntelligence) (s : SentimentAnalysis)
    (r : CompanyVerificationRequest) :
    (calculateRisk w s r).confidence =
      pyRound (((if w.companies_house_match then (0.9 : ℚ) else 0.5)
        + (if w.website_active then (0.8 : ℚ) else 0.4)
        + (if 0 < s.sources.length then (0.85 : ℚ) else 0.5)
        + completenessRatio r) / 4) 2
    ∧ 0 ≤ (calculateRisk w s r).confidence
    ∧ (calculateRisk w s r).confidence ≤ 1 := by
  have hmean : calculateConfidence w s (completenessRatio r) =
      ((if w.companies_house_match then (0.9 : ℚ) else 0.5)
        + (if w.website_active then (0.8 : ℚ) else 0.4)
        + (if 0 < s.sources.length then (0.85 : ℚ) else 0.5)
        + completenessRatio r) / 4 := by
    simp [calculateConfidence]
    ring
  have hρ0 := completenessRatio_nonneg r
  have hρ1 := completenessRatio_le_one r
  have hlb : 0 ≤ calculateConfidence w s (completenessRatio r) := by
    rw [hmean]
    split_ifs <;> linarith
  have hub : calculateConfidence w s (completenessRatio r) ≤ 0.8875 := by
    rw [hmean]
    split_ifs <;> linarith
  refine ⟨by rw [calculateRisk_confidence, hmean], ?_, ?_⟩
  · rw [calculateRisk_confidence]
    exact pyRound_nonneg 2 hlb
  · rw [calculateRisk_confidence]
    have hle := @pyRound_le_add (calculateConfidence w s (completenessRatio r)) 2
    have h100 : (1 : ℚ) / 10 ^ 2 = 0.01 := by norm_num
    linarith

/-- C6: with no (truthy) business description and register-match false,
the sentiment aggregator returns NEUTRAL with score 0.5 and an empty
source list, as a normal return value. -/
theorem C6_no_data_neutral (classify : String → TextScores)
    (company_name : String) (business_description : Option String)
    (w : WebIntelligence)
    (h1 : pyTruthy business_description = false)
    (h2 : w.companies_house_match = false) :
    analyzeCompanySentiment classify company_name business_description w =
      { overall_sentiment := SentimentType.NEUTRAL, sentiment_score := 0.5,
        sources := [] } := by
  unfold analyzeCompanySentiment
  simp [h1, h2]

/-- C6 witness: the insufficient-data case at a concrete input. -/
theorem C6_witness :
    analyzeCompanySentiment neutralClassify "Test Co" none defaultSignals =
      { overall_sentiment := SentimentType.NEUTRAL, sentiment_score := 0.5,
        sources := [] } :=
  C6_no_data_neutral neutralClassify "Test Co" none defaultSignals rfl rfl

/-- C7: the signal gatherer's exception handling: whenever an individual
lookup raises, its result is replaced by the documented default
(register false; website inactive with no age; network page unverified
with no followers; 0 articles with no date), and a complete SignalSet is
still returned (the embedding is total). -/
theorem C7_gather_defaults (hr : Except Unit Bool)
    (web : Except Unit (Bool × Option String))
    (li : Except Unit (Bool × Option ℕ))
    (news : Except Unit (ℕ × Option ℕ)) :
    (∀ e, hr = Except.error e →
      (gatherIntelligence hr web li news).companies_house_match = false)
    ∧ (∀ e, web = Except.error e →
      (gatherIntelligence hr web li news).website_active = false
      ∧ (gatherIntelligence hr web li news).website_age = none)
    ∧ (∀ e, li = Except.error e →
      (gatherIntelligence hr web li news).linkedin_verified = false
      ∧ (gatherIntelligence hr web li news).linkedin_followers = none)
    ∧ (∀ e, news = Except.error e →
      (gatherIntelligence hr web li news).news_articles_found = 0
      ∧ (gatherIntelligence hr web li news).recent_news_date = none) := by
  refine ⟨?_, ?_, ?_, ?_⟩
  · rintro e rfl
    rfl
  · rintro e rfl
    exact ⟨rfl, rfl⟩
  · rintro e rfl
    exact ⟨rfl, rfl⟩
  · rintro e rfl
    exact ⟨rfl, rfl⟩

/-- C7 witness: all four lookups raising at once still produces the
fully-defaulted SignalSet. -/
theorem C7_witness :
    (gatherIntelligence (Except.error ()) (Except.error ()) (Except.error ())
      (Except.error ())).companies_house_match = false
    ∧ (gatherIntelligence (Except.error ()) (Except.error ()) (Except.error ())
      (Except.error ())).website_active = false
    ∧ (gatherIntelligence (Except.error ()) (Except.error ()) (Except.error ())
      (Except.error ())).linkedin_verified = false
    ∧ (gatherIntelligence (Except.error ()) (Except.error ()) (Except.error ())
      (Except.error ())).news_articles_found = 0 :=
  ⟨(C7_gather_defaults (Except.error ()) (Except.error ()) (Except.error ())
      (Except.error ())).1 () rfl,
   ((C7_gather_defaults (Except.error ()) (Except.error ()) (Except.error ())
      (Except.error ())).2.1 () rfl).1,
   ((C7_gather_defaults (Except.error ()) (Except.error ()) (Except.error ())
      (Except.error ())).2.2.1 () rfl).1,
   ((C7_gather_defaults (Except.error ()) (Except.error ()) (Except.error ())
      (Except.error ())).2.2.2 () rfl).1⟩

/-- C10: the aggregator's source list, projected to source names, is
exactly the concatenation of a "Business Description" singleton (present
iff a truthy description was given) and a "Web Presence Analysis"
singleton (present iff register-match and website-active both hold), in
that order — hence at most two sources. -/
theorem C10_sources_order (classify : String → TextScores)
    (company_name : String) (business_description : Option String)
    (w : WebIntelligence) :
    (analyzeCompanySentiment classify company_name business_description
        w).sources.map SentimentSource.source =
      (if pyTruthy business_description = true then ["Business Description"] else [])
      ++ (if (w.companies_house_match && w.website_active) = true
          then ["Web Presence Analysis"] else []) := by
  unfold analyzeCompanySentiment
  by_cases h1 : pyTruthy business_description = true <;>
    by_cases h2 : (w.companies_house_match && w.website_active) = true <;>
    simp [h1, h2]
